import Mathlib

/-!
Shallow embedding of the Flask service in `app.py`: a liveness route,
a prediction route that validates a multipart form, decodes an image,
calls an external inference API, and maps the response text to one of
three category labels by substring scan.

External effects (image decoding, the outbound API call) are embedded as
explicit parameters of the handler; log lines and the outbound-call count
are returned alongside the HTTP response, with log entries accumulated in
the order the code emits them (so logs listed in a result were emitted
before the response was returned).
-/

set_option autoImplicit false

namespace GeminiServer

/-- Severity level of a log line (logger.info / logger.error in `app.py`). -/
inductive LogLevel where
  | info
  | error
deriving DecidableEq

/-- One log line emitted by the service. -/
structure LogEntry where
  level : LogLevel
  msg : String
deriving DecidableEq

/-- The JSON bodies the service can produce via `jsonify`, plus the empty
body of the CORS preflight response.  Every non-`empty` constructor is a
well-formed JSON object by construction of `jsonify`. -/
inductive Body where
  | empty
  | errorBody (msg : String)
  | successBody (prediction category : String)
  | statusBody (status service : String)
deriving DecidableEq

/-- A body is well-formed JSON exactly when it was produced by `jsonify`
(the empty preflight body is not a JSON document). -/
def Body.isJson : Body → Bool
  | .empty => false
  | _ => true

/-- Outcome of `Image.open(BytesIO(image_data))`: either the bytes decode,
or an exception with message `msg` is raised. -/
inductive DecodeResult where
  | ok
  | fail (msg : String)
deriving DecidableEq

/-- Outcome of `client.models.generate_content`: a successful response whose
`.text` is `t`, an `APIError` with `.message` `msg`, or any other raised
exception with message `msg`. -/
inductive ApiOutcome where
  | text (t : String)
  | apiError (msg : String)
  | otherError (msg : String)
deriving DecidableEq

/-- Whether the outbound API call raised an error. -/
def ApiOutcome.raises : ApiOutcome → Bool
  | .text _ => false
  | .apiError _ => true
  | .otherError _ => true

/-- The part of a Flask request that `gemini_predict` inspects: the HTTP
method, the names of the file fields of the multipart form
(`request.files`), and the text form fields (`request.form`). -/
structure PredictRequest where
  method : String
  fileFields : List String
  form : List (String × String)
deriving DecidableEq

/-- `request.form.get(key)`: first value bound to `key`, or `None`. -/
def formGet (form : List (String × String)) (key : String) : Option String :=
  match form with
  | [] => none
  | (k, v) :: rest => if k = key then some v else formGet rest key

/-- Result of running a handler: HTTP status, response body, the log lines
emitted (in order, all before the response is returned), and the number of
outbound calls made to the external inference API. -/
structure HandlerResult where
  status : Nat
  body : Body
  logs : List LogEntry
  apiCalls : Nat
deriving DecidableEq

/-- Python substring membership on lists of characters:
`pyInAux n h = true` iff `n` occurs contiguously in `h`. -/
def pyInAux (needle : List Char) : List Char → Bool
  | [] => needle.isEmpty
  | c :: rest => needle.isPrefixOf (c :: rest) || pyInAux needle rest

/-- The Python expression `needle in hay` on strings: case-sensitive
substring containment. -/
def pyIn (needle hay : String) : Bool :=
  pyInAux needle.data hay.data

/-- Lines 91-96 of `app.py`: map the response text to a category by a
first-match-wins, case-sensitive substring scan. -/
def categorize (t : String) : String :=
  if pyIn "Recyclable" t then "Recyclable"
  else if pyIn "Compost" t then "Compost"
  else "Non-Recyclable"

/-- The route table declared on the Flask app: the liveness route `/`
(default method GET) and the prediction route, declared with methods
POST and OPTIONS. -/
def appRoutes : List (String × List String) :=
  [("/", ["GET"]), ("/api/gemini-predict", ["POST", "OPTIONS"])]

/-- The `home` handler (lines 47-50 of `app.py`): a fixed status payload.
It reads no request data and touches no external service. -/
def home : HandlerResult :=
  { status := 200, body := .statusBody "ok" "Gemini NeuroSort API",
    logs := [], apiCalls := 0 }

/-- Lines 24-28 of `app.py`: read `GEMINI_API_KEY` from the environment
exactly once at process start; if it is unset (or empty, both falsy in
Python), log an error and raise `RuntimeError`, refusing to start.
Returns the log lines emitted and either the fatal error or the key. -/
def startup (env : Option String) : List LogEntry × Except String String :=
  match env with
  | none =>
      ([⟨.error, "GEMINI_API_KEY is not set. Please set the environment variable."⟩],
       .error "GEMINI_API_KEY is not set")
  | some k =>
      if k = "" then
        ([⟨.error, "GEMINI_API_KEY is not set. Please set the environment variable."⟩],
         .error "GEMINI_API_KEY is not set")
      else ([], .ok k)

/-- The body of the try block of `gemini_predict` (lines 71-114 of
`app.py`), reached once validation has passed with non-empty prompt `p`:
decode the image, call Gemini, scan the response text, or fall into one of
the two except clauses. -/
def predictCore (p : String) (decode : DecodeResult) (api : ApiOutcome) :
    HandlerResult :=
  match decode with
  | .fail m =>
      { status := 500, body := .errorBody "Internal AI prediction service failed.",
        logs := [⟨.error, "Internal Server Error: " ++ m⟩], apiCalls := 0 }
  | .ok =>
    let received : LogEntry :=
      ⟨.info, "Received image and prompt: " ++ p ++ ". Sending request to Gemini..."⟩
    match api with
    | .text t =>
        let category := categorize t
        { status := 200, body := .successBody t category,
          logs := [received,
            ⟨.info, "Prediction complete. Category: " ++ category
              ++ ". Response snippet: " ++ t.take 50 ++ "..."⟩],
          apiCalls := 1 }
    | .apiError m =>
        { status := 500, body := .errorBody ("Gemini API service failed: " ++ m),
          logs := [received, ⟨.error, "Gemini API Error: " ++ m⟩], apiCalls := 1 }
    | .otherError m =>
        { status := 500, body := .errorBody "Internal AI prediction service failed.",
          logs := [received, ⟨.error, "Internal Server Error: " ++ m⟩], apiCalls := 1 }

/-- The `gemini_predict` handler (lines 53-114 of `app.py`).  `decode` is
the outcome of `Image.open` on the uploaded bytes and `api` the outcome of
the `generate_content` call; both are consulted only if control reaches
the corresponding line of the handler. -/
def gemini_predict (req : PredictRequest) (decode : DecodeResult)
    (api : ApiOutcome) : HandlerResult :=
  if req.method = "OPTIONS" then
    { status := 204, body := .empty, logs := [], apiCalls := 0 }
  else if req.fileFields.contains "image" = false then
    { status := 400, body := .errorBody "No image file provided",
      logs := [], apiCalls := 0 }
  else
    match formGet req.form "prompt" with
    | none =>
        { status := 400, body := .errorBody "No text prompt provided",
          logs := [], apiCalls := 0 }
    | some p =>
      if p = "" then
        { status := 400, body := .errorBody "No text prompt provided",
          logs := [], apiCalls := 0 }
      else predictCore p decode api

/-- The prompt field is present and non-empty (passes `if not prompt`). -/
def promptProvided (req : PredictRequest) : Bool :=
  match formGet req.form "prompt" with
  | none => false
  | some p => p != ""

/-- C1: For every response text returned by the external model, the
category is derived by a first-match-wins, case-sensitive substring scan:
if the text contains the literal substring "Recyclable" anywhere (even
alongside other keywords), the category is "Recyclable"; otherwise if it
contains "Compost", the category is "Compost"; otherwise the category is
"Non-Recyclable". -/
theorem c1_category_first_match (t : String) :
    (pyIn "Recyclable" t = true → categorize t = "Recyclable") ∧
    (pyIn "Recyclable" t = false → pyIn "Compost" t = true →
      categorize t = "Compost") ∧
    (pyIn "Recyclable" t = false → pyIn "Compost" t = false →
      categorize t = "Non-Recyclable") := by
  refine ⟨fun h => ?_, fun h1 h2 => ?_, fun h1 h2 => ?_⟩ <;>
    simp [categorize, *]

/-- C1 witness: the three branches at concrete response texts, including a
text that contains both keywords. -/
theorem c1_category_first_match_witness :
    categorize "It is Recyclable but also Compost" = "Recyclable" ∧
    categorize "Likely Compost material" = "Compost" ∧
    categorize "just trash" = "Non-Recyclable" :=
  ⟨(c1_category_first_match "It is Recyclable but also Compost").1 (by decide),
   (c1_category_first_match "Likely Compost material").2.1 (by decide) (by decide),
   (c1_category_first_match "just trash").2.2 (by decide) (by decide)⟩

/-- C2: For every POST request to the prediction endpoint whose multipart
form has no `image` field, the endpoint returns HTTP 400 with the exact
error body with message "No image file provided". -/
theorem c2_missing_image (req : PredictRequest) (d : DecodeResult)
    (api : ApiOutcome)
    (hm : req.method = "POST")
    (hi : req.fileFields.contains "image" = false) :
    gemini_predict req d api =
      { status := 400, body := .errorBody "No image file provided",
        logs := [], apiCalls := 0 } := by
  unfold gemini_predict
  rw [hm, if_neg (by decide), if_pos hi]

/-- C2 witness: a concrete POST request with a prompt but no image field. -/
theorem c2_missing_image_witness :
    gemini_predict ⟨"POST", [], [("prompt", "classify this")]⟩ .ok (.text "Compost") =
      { status := 400, body := .errorBody "No image file provided",
        logs := [], apiCalls := 0 } :=
  c2_missing_image _ _ _ rfl (by decide)

/-- Reduction lemma: on a POST request that passes both validation checks
with non-empty prompt `p`, the handler runs the try block. -/
theorem gemini_predict_eq_core (req : PredictRequest) (d : DecodeResult)
    (api : ApiOutcome)
    (hm : req.method = "POST")
    (hi : req.fileFields.contains "image" = true)
    (p : String) (hp : formGet req.form "prompt" = some p) (hp0 : p ≠ "") :
    gemini_predict req d api = predictCore p d api := by
  unfold gemini_predict
  rw [hm, if_neg (by decide), if_neg (by rw [hi]; decide), hp]
  exact if_neg hp0

/-- C3: For every POST request to the prediction endpoint that has an
`image` field but whose `prompt` form field is absent or the empty string,
the endpoint returns HTTP 400 with the error body with message
"No text prompt provided". -/
theorem c3_missing_prompt (req : PredictRequest) (d : DecodeResult)
    (api : ApiOutcome)
    (hm : req.method = "POST")
    (hi : req.fileFields.contains "image" = true)
    (hp : formGet req.form "prompt" = none ∨ formGet req.form "prompt" = some "") :
    gemini_predict req d api =
      { status := 400, body := .errorBody "No text prompt provided",
        logs := [], apiCalls := 0 } := by
  unfold gemini_predict
  rw [hm, if_neg (by decide), if_neg (by rw [hi]; decide)]
  rcases hp with hp | hp
  · rw [hp]
  · rw [hp]; rfl

/-- C3 witness: a concrete POST request with an image field and no prompt
field at all. -/
theorem c3_missing_prompt_witness :
    gemini_predict ⟨"POST", ["image"], []⟩ .ok (.text "Compost") =
      { status := 400, body := .errorBody "No text prompt provided",
        logs := [], apiCalls := 0 } :=
  c3_missing_prompt _ _ _ rfl (by decide) (Or.inl rfl)

/-- C4: For every request in which the outbound call to the external
inference API raises any error, the prediction endpoint returns HTTP 500
with a JSON error body (the vendor-supplied message for vendor API errors,
a generic message otherwise), an error log entry is emitted before the
response, and the response body is well-formed JSON. -/
theorem c4_api_error_500 (req : PredictRequest) (api : ApiOutcome)
    (hm : req.method = "POST")
    (hi : req.fileFields.contains "image" = true)
    (p : String) (hp : formGet req.form "prompt" = some p) (hp0 : p ≠ "")
    (hr : api.raises = true) :
    (gemini_predict req .ok api).status = 500 ∧
    (gemini_predict req .ok api).body.isJson = true ∧
    (∃ e ∈ (gemini_predict req .ok api).logs, e.level = .error) ∧
    (∀ m, api = .apiError m →
      (gemini_predict req .ok api).body =
        .errorBody ("Gemini API service failed: " ++ m)) ∧
    (∀ m, api = .otherError m →
      (gemini_predict req .ok api).body =
        .errorBody "Internal AI prediction service failed.") := by
  rw [gemini_predict_eq_core req .ok api hm hi p hp hp0]
  cases api with
  | text t => simp [ApiOutcome.raises] at hr
  | apiError m =>
      exact ⟨rfl, rfl,
        ⟨⟨.error, "Gemini API Error: " ++ m⟩,
          List.mem_cons_of_mem _ (List.mem_cons_self _ _), rfl⟩,
        fun m2 hm2 => by cases hm2; rfl,
        fun m2 hm2 => ApiOutcome.noConfusion hm2⟩
  | otherError m =>
      exact ⟨rfl, rfl,
        ⟨⟨.error, "Internal Server Error: " ++ m⟩,
          List.mem_cons_of_mem _ (List.mem_cons_self _ _), rfl⟩,
        fun m2 hm2 => ApiOutcome.noConfusion hm2,
        fun m2 hm2 => by cases hm2; rfl⟩

/-- C4 witness: a concrete valid request whose outbound call raises a
vendor API error. -/
theorem c4_api_error_500_witness :
    (gemini_predict ⟨"POST", ["image"], [("prompt", "sort this")]⟩ .ok
        (.apiError "quota exceeded")).status = 500 ∧
    (gemini_predict ⟨"POST", ["image"], [("prompt", "sort this")]⟩ .ok
        (.apiError "quota exceeded")).body =
      .errorBody "Gemini API service failed: quota exceeded" :=
  ⟨(c4_api_error_500 ⟨"POST", ["image"], [("prompt", "sort this")]⟩
      (.apiError "quota exceeded") rfl (by decide) "sort this" rfl (by decide) rfl).1,
   (c4_api_error_500 ⟨"POST", ["image"], [("prompt", "sort this")]⟩
      (.apiError "quota exceeded") rfl (by decide) "sort this" rfl (by decide) rfl).2.2.2.1
     "quota exceeded" rfl⟩

/-- C5: For every request whose uploaded image bytes are not decodable as
a raster image, and for every request in which any other unhandled fault
occurs inside the handler, the prediction endpoint returns HTTP 500 with
the generic error message (not a 400). -/
theorem c5_decode_failure_500 (req : PredictRequest) (api : ApiOutcome)
    (hm : req.method = "POST")
    (hi : req.fileFields.contains "image" = true)
    (p : String) (hp : formGet req.form "prompt" = some p) (hp0 : p ≠ "") :
    (∀ dm, gemini_predict req (.fail dm) api =
      { status := 500, body := .errorBody "Internal AI prediction service failed.",
        logs := [⟨.error, "Internal Server Error: " ++ dm⟩], apiCalls := 0 }) ∧
    (∀ m, (gemini_predict req .ok (.otherError m)).status = 500 ∧
      (gemini_predict req .ok (.otherError m)).body =
        .errorBody "Internal AI prediction service failed.") := by
  constructor
  · intro dm
    rw [gemini_predict_eq_core req (.fail dm) api hm hi p hp hp0]
    rfl
  · intro m
    rw [gemini_predict_eq_core req .ok (.otherError m) hm hi p hp hp0]
    exact ⟨rfl, rfl⟩

/-- C5 witness: a concrete valid request whose image bytes fail to
decode. -/
theorem c5_decode_failure_500_witness :
    gemini_predict ⟨"POST", ["image"], [("prompt", "sort this")]⟩
        (.fail "cannot identify image file") (.text "Compost") =
      { status := 500, body := .errorBody "Internal AI prediction service failed.",
        logs := [⟨.error, "Internal Server Error: cannot identify image file"⟩],
        apiCalls := 0 } :=
  (c5_decode_failure_500 ⟨"POST", ["image"], [("prompt", "sort this")]⟩
      (.text "Compost") rfl (by decide) "sort this" rfl (by decide)).1
    "cannot identify image file"

/-- C6: For every GET request to /, the service returns HTTP 200 with the
fixed JSON body with status "ok" and the service name, independent of the
external inference API's availability and of any request content (the
unused binders range over the API outcome and any request). -/
theorem c6_home_fixed (_api : ApiOutcome) (_req : PredictRequest) :
    List.lookup "/" appRoutes = some ["GET"] ∧
    home.status = 200 ∧
    home.body = .statusBody "ok" "Gemini NeuroSort API" ∧
    home.apiCalls = 0 :=
  ⟨rfl, rfl, rfl, rfl⟩

/-- C7 counterexample: the claim says a present credential lets startup
proceed, but with the variable present and set to the empty string (falsy
in Python, line 25's `if not API_KEY`) startup refuses to start: it yields
the fatal error, not a successful `.ok` with the key. -/
theorem c7_present_empty_refused :
    (startup (some "")).2 = Except.error "GEMINI_API_KEY is not set" ∧
    (startup (some "")).2 ≠ Except.ok "" :=
  ⟨rfl, fun h => Except.noConfusion h⟩

/-- C7 (amended): if the API credential environment variable is absent at
startup, or present but set to the empty string (both falsy in Python),
the process refuses to start — startup raises a fatal error after logging
it; if it is present and non-empty, startup proceeds.  The model reads the
credential exactly once, as the single environment argument consumed at
process start. -/
theorem c7_startup_credential (k : String) (hk : k ≠ "") :
    (startup none).2 = .error "GEMINI_API_KEY is not set" ∧
    (∃ e ∈ (startup none).1, e.level = .error) ∧
    (startup (some "")).2 = .error "GEMINI_API_KEY is not set" ∧
    (∃ e ∈ (startup (some "")).1, e.level = .error) ∧
    (startup (some k)).2 = .ok k := by
  refine ⟨rfl,
    ⟨⟨.error, "GEMINI_API_KEY is not set. Please set the environment variable."⟩,
      by simp [startup], rfl⟩,
    rfl,
    ⟨⟨.error, "GEMINI_API_KEY is not set. Please set the environment variable."⟩,
      by simp [startup], rfl⟩, ?_⟩
  unfold startup
  exact congrArg Prod.snd (if_neg hk)

/-- C7 witness: startup with a concrete non-empty credential proceeds,
and startup with the variable absent or empty fails. -/
theorem c7_startup_credential_witness :
    (startup none).2 = .error "GEMINI_API_KEY is not set" ∧
    (startup (some "")).2 = .error "GEMINI_API_KEY is not set" ∧
    (startup (some "AIza-test-key")).2 = .ok "AIza-test-key" :=
  ⟨(c7_startup_credential "AIza-test-key" (by decide)).1,
   (c7_startup_credential "AIza-test-key" (by decide)).2.2.1,
   (c7_startup_credential "AIza-test-key" (by decide)).2.2.2.2⟩

/-- C8 counterexample: the claim places the prediction endpoint at the
route path /api/predict, but no route with that path exists in the app's
route table; the route decorator declares /api/gemini-predict. -/
theorem c8_route_path_counterexample :
    List.lookup "/api/predict" appRoutes = none ∧
    appRoutes.all (fun r => r.fst != "/api/predict") = true := by decide

/-- C8 (amended): the prediction endpoint is exposed at the route path
/api/gemini-predict, accepting POST (multipart/form-data with fields
image and prompt) and OPTIONS, the latter returning 204 with an empty
body. -/
theorem c8_route_methods (req : PredictRequest) (d : DecodeResult)
    (api : ApiOutcome)
    (hm : req.method = "OPTIONS") :
    List.lookup "/api/gemini-predict" appRoutes = some ["POST", "OPTIONS"] ∧
    gemini_predict req d api =
      { status := 204, body := .empty, logs := [], apiCalls := 0 } := by
  refine ⟨by decide, ?_⟩
  unfold gemini_predict
  rw [if_pos hm]

/-- C8 witness: a concrete OPTIONS preflight request. -/
theorem c8_route_methods_witness :
    gemini_predict ⟨"OPTIONS", [], []⟩ .ok (.text "x") =
      { status := 204, body := .empty, logs := [], apiCalls := 0 } :=
  (c8_route_methods ⟨"OPTIONS", [], []⟩ .ok (.text "x") rfl).2

/-- C9 counterexample: a POST request with no image field is rejected with
400 after zero outbound calls, refuting the claim that every request
(including those rejected with 400) makes exactly one outbound call. -/
theorem c9_rejected_request_no_call :
    (gemini_predict ⟨"POST", [], []⟩ .ok (.text "Compost")).status = 400 ∧
    (gemini_predict ⟨"POST", [], []⟩ .ok (.text "Compost")).apiCalls = 0 ∧
    (gemini_predict ⟨"POST", [], []⟩ .ok (.text "Compost")).apiCalls ≠ 1 := by
  decide

/-- C9 (amended): every request to the prediction endpoint makes at most
one outbound call to the external inference service, and exactly one
precisely when it is a non-preflight request that carries an image field
and a non-empty prompt and whose image bytes decode; the handler's only
other side effects are the returned log lines. -/
theorem c9_at_most_one_call (req : PredictRequest) (d : DecodeResult)
    (api : ApiOutcome) :
    (gemini_predict req d api).apiCalls ≤ 1 ∧
    ((gemini_predict req d api).apiCalls = 1 ↔
      (req.method ≠ "OPTIONS" ∧ req.fileFields.contains "image" = true ∧
        promptProvided req = true ∧ d = DecodeResult.ok)) := by
  by_cases hm : req.method = "OPTIONS"
  · simp [gemini_predict, hm]
  · by_cases hi : req.fileFields.contains "image" = true
    · have hmem : "image" ∈ req.fileFields := List.mem_of_elem_eq_true hi
      rcases hfg : formGet req.form "prompt" with _ | p
      · simp [gemini_predict, promptProvided, hm, hi, hmem, hfg]
      · by_cases hp : p = ""
        · simp [gemini_predict, promptProvided, hm, hi, hmem, hfg, hp]
        · cases d with
          | ok =>
              cases api <;>
                simp [gemini_predict, predictCore, promptProvided, hm, hi, hmem, hfg, hp]
          | fail m =>
              simp [gemini_predict, predictCore, promptProvided, hm, hi, hmem, hfg, hp]
    · have hmem : ¬("image" ∈ req.fileFields) :=
        fun h => hi (List.elem_eq_true_of_mem h)
      simp [gemini_predict, promptProvided, hm, hmem]

/-- C9 witness: a concrete valid request makes exactly one outbound
call. -/
theorem c9_at_most_one_call_witness :
    (gemini_predict ⟨"POST", ["image"], [("prompt", "bottle")]⟩ .ok
      (.text "Recyclable")).apiCalls = 1 :=
  (c9_at_most_one_call ⟨"POST", ["image"], [("prompt", "bottle")]⟩ .ok
      (.text "Recyclable")).2.mpr
    ⟨by decide, by decide, by decide, rfl⟩

/-- C10: Input validation is order-sensitive with the image check first:
for every POST request missing both the image field and the prompt field,
the endpoint returns 400 with the image error message "No image file
provided" (never the prompt error), and the prompt check is reached only
when an image field is present. -/
theorem c10_image_check_first (req : PredictRequest) (d : DecodeResult)
    (api : ApiOutcome)
    (hm : req.method = "POST") :
    (req.fileFields.contains "image" = false →
      gemini_predict req d api =
        { status := 400, body := .errorBody "No image file provided",
          logs := [], apiCalls := 0 }) ∧
    ((gemini_predict req d api).body = .errorBody "No text prompt provided" →
      req.fileFields.contains "image" = true) := by
  constructor
  · intro hi
    unfold gemini_predict
    rw [hm, if_neg (by decide), if_pos hi]
  · intro hbody
    by_cases hi : req.fileFields.contains "image" = true
    · exact hi
    · exfalso
      have hif : req.fileFields.contains "image" = false := Bool.eq_false_iff.mpr hi
      have h400 : gemini_predict req d api =
          { status := 400, body := .errorBody "No image file provided",
            logs := [], apiCalls := 0 } := by
        unfold gemini_predict
        rw [hm, if_neg (by decide), if_pos hif]
      rw [h400] at hbody
      exact absurd hbody (by decide)

/-- C10 witness: a concrete POST request missing both the image and the
prompt field receives the image error. -/
theorem c10_image_check_first_witness :
    gemini_predict ⟨"POST", [], []⟩ .ok (.text "Compost") =
      { status := 400, body := .errorBody "No image file provided",
        logs := [], apiCalls := 0 } :=
  (c10_image_check_first ⟨"POST", [], []⟩ .ok (.text "Compost") rfl).1 (by decide)

end GeminiServer
